import Mathlib

/-!
Shallow embedding of the SQL validation-and-execution gateway of this
repository: the `_run` methods of `SecureSchoolSQLTool` in `main.py`
(single-statement variant) and `app.py` (multi-statement variant), and of
`SafeSQLTool` in `SQLAgent/scripts/gemini_agent.py` (read-only variant).

Strings are modelled as `List Char`.  The Python regular-expression checks
(`re.search`/`re.match` with `re.I`) are embedded as executable scanners over
character lists; `\w`, `\s`, `\d` and case folding are modelled with their
ASCII meaning, which is the intended input alphabet of the tool (SQL text).
The SQLAlchemy engine is abstracted as an `Engine`: a function from the
current data-source state and a statement text to either an error message
(a raised exception) or a result together with the pending state that a
`commit` would install.  A connection that is closed without `commit`
discards the pending state, exactly as in the `with engine.connect()`
blocks of the source.  Each run function also returns the list of statement
texts that were handed to the engine, so that "no database contact" is a
provable statement.
-/

namespace SQLGate

abbrev Str := List Char

/-- ASCII whitespace as matched by Python's `str.strip` and the regex
class `\s` on ASCII text: space, tab, newline, carriage return, vertical
tab and form feed. -/
def pySpace (c : Char) : Bool :=
  c = ' ' || c = '\t' || c = '\n' || c = '\r' || c = '\x0b' || c = '\x0c'

/-- ASCII word character, the regex class `\w`: letters, digits, underscore. -/
def isWordChar (c : Char) : Bool :=
  c.isAlpha || c.isDigit || c = '_'

/-- ASCII upper-casing, as used by `re.I` matching and `str.upper` on the
keyword alphabet. -/
def upC (c : Char) : Char :=
  if c.isLower then Char.ofNat (c.toNat - 32) else c

/-- Case-insensitive match of the (upper-case) keyword `kw` against a
prefix of `l`; on success returns the remainder of `l`. -/
def matchKW : Str → Str → Option Str
  | [], l => some l
  | _ :: _, [] => none
  | k :: ks, c :: cs => if upC c = k then matchKW ks cs else none

/-- The regex word boundary `\b` holds after the match when the remainder
does not begin with a word character. -/
def headNotWord : Str → Bool
  | [] => true
  | c :: _ => !isWordChar c

/-- The regex word boundary `\b` holds before a position when the previous
character (`none` at the start of the string) is not a word character. -/
def boundaryOK : Option Char → Bool
  | none => true
  | some c => !isWordChar c

/-- A hit of `kw` followed by `\b` at the current position. -/
def wordHit (kw : Str) (l : Str) : Bool :=
  match matchKW kw l with
  | some r => headNotWord r
  | none => false

/-- Generic left-to-right scan: try `hit` at every position, tracking the
previous character for boundary checks. -/
def scanH (hit : Option Char → Str → Bool) : Option Char → Str → Bool
  | _, [] => false
  | p, c :: cs => hit p (c :: cs) || scanH hit (some c) cs

/-- `re.search(r"\bKW\b", l, re.I)` for a single keyword. -/
def searchWord (kw : Str) (l : Str) : Bool :=
  scanH (fun p t => boundaryOK p && wordHit kw t) none l

/-- `re.search(r"\b(K1|K2|...)\b", l, re.I)` for an alternation of keywords. -/
def searchAnyWord (kws : List Str) (l : Str) : Bool :=
  kws.any (fun kw => searchWord kw l)

def kwSELECT : Str := "SELECT".data
def kwUPDATE : Str := "UPDATE".data
def kwINSERT : Str := "INSERT".data
def kwDELETE : Str := "DELETE".data
def kwCREATE : Str := "CREATE".data
def kwALTER : Str := "ALTER".data
def kwREPLACE : Str := "REPLACE".data
def kwDROP : Str := "DROP".data
def kwTRUNCATE : Str := "TRUNCATE".data
def kwEXEC : Str := "EXEC".data
def kwEXECUTE : Str := "EXECUTE".data

/-- The check `re.search(r"\b(DROP|TRUNCATE|EXEC|EXECUTE)\b", s, re.I)`. -/
def dangerousSearch (l : Str) : Bool :=
  searchAnyWord [kwDROP, kwTRUNCATE, kwEXEC, kwEXECUTE] l

/-- The check `re.search(r"\b(INSERT|UPDATE|DELETE|CREATE|ALTER|REPLACE)\b", s, re.I)`. -/
def writeSearch (l : Str) : Bool :=
  searchAnyWord [kwINSERT, kwUPDATE, kwDELETE, kwCREATE, kwALTER, kwREPLACE] l

/-- The eight-keyword write check of the read-only gemini variant. -/
def gemWriteSearch (l : Str) : Bool :=
  searchAnyWord [kwINSERT, kwUPDATE, kwDELETE, kwDROP, kwTRUNCATE, kwALTER, kwCREATE, kwREPLACE] l

/-- A hit of `limit\s+\d+\b` at the current position (the `\b` before
`limit` is checked by the enclosing scan). -/
def limitHit (l : Str) : Bool :=
  match matchKW "LIMIT".data l with
  | some r =>
    (match r with | c :: _ => pySpace c | [] => false) &&
    (let r1 := r.dropWhile pySpace
     (match r1 with | c :: _ => c.isDigit | [] => false) &&
     headNotWord (r1.dropWhile Char.isDigit))
  | none => false

/-- The check `re.search(r"\blimit\s+\d+\b", s, re.I)`. -/
def limitSearch (l : Str) : Bool :=
  scanH (fun p t => boundaryOK p && limitHit t) none l

/-- A hit of the keyword immediately followed by a literal parenthesis,
as in `count(`. -/
def parenHit (kw : Str) (l : Str) : Bool :=
  match matchKW kw l with
  | some ('(' :: _) => true
  | _ => false

/-- A hit of `group\s+by\b` at the current position. -/
def groupByHit (l : Str) : Bool :=
  match matchKW "GROUP".data l with
  | some (c :: r) => pySpace c && wordHit "BY".data ((c :: r).dropWhile pySpace)
  | _ => false

/-- One alternative of the aggregate regex of `main.py`/`app.py`:
`\bcount\(|\bgroup\s+by\b|\bsum\(|\bavg\(|\bmax\(|\bmin\(`. -/
def aggHit (l : Str) : Bool :=
  parenHit "COUNT".data l || groupByHit l || parenHit "SUM".data l ||
  parenHit "AVG".data l || parenHit "MAX".data l || parenHit "MIN".data l

/-- The aggregate-indicator search of `main.py`/`app.py` (every alternative
carries a leading `\b`). -/
def aggSearch (l : Str) : Bool :=
  scanH (fun p t => boundaryOK p && aggHit t) none l

/-- The aggregate-indicator search of the gemini variant, whose
`group\s+by\b` alternative carries no leading `\b`. -/
def gemAggSearch (l : Str) : Bool :=
  scanH (fun p t =>
    (boundaryOK p && (parenHit "COUNT".data t || parenHit "SUM".data t ||
      parenHit "AVG".data t || parenHit "MAX".data t || parenHit "MIN".data t)) ||
    groupByHit t) none l

/-- `re.match(r"(?is)^\s*KW\b", l)`: the keyword leads the statement after
optional whitespace. -/
def leadingKW (kw : Str) (l : Str) : Bool :=
  wordHit kw (l.dropWhile pySpace)

/-- The statement-type allowlist `re.match(r"(?is)^\s*(select|update|insert|delete)\b", s)`. -/
def leadingAllowed (l : Str) : Bool :=
  leadingKW kwSELECT l || leadingKW kwUPDATE l || leadingKW kwINSERT l || leadingKW kwDELETE l

/-- `re.match(r"(?is)^\s*select\b", s)`. -/
def leadingSelect (l : Str) : Bool :=
  leadingKW kwSELECT l

/-- Python `str.strip()`: drop ASCII whitespace from both ends. -/
def pyStrip (l : Str) : Str :=
  ((l.dropWhile pySpace).reverse.dropWhile pySpace).reverse

/-- The input normalization `sql.strip().rstrip(";")` of the
single-statement variants. -/
def pyNormalize (l : Str) : Str :=
  ((pyStrip l).reverse.dropWhile (fun c => c = ';')).reverse

/-- Python `sql.split(';')`: split on every separator, keeping empty pieces. -/
def splitSemi : Str → List Str
  | [] => [[]]
  | c :: cs =>
    if c = ';' then [] :: splitSemi cs
    else
      match splitSemi cs with
      | [] => [[c]]
      | p :: ps => (c :: p) :: ps

/-- The statement list `[s.strip() for s in sql.split(';') if s.strip()]`
of the multi-statement variant. -/
def splitStmts (sql : Str) : List Str :=
  ((splitSemi sql).map pyStrip).filter (fun s => !s.isEmpty)

def dangerousMsg : Str :=
  "ERROR: Dangerous operations (DROP, TRUNCATE, EXEC) are not allowed for security reasons.".data

def authMsg : Str :=
  "ERROR: Write operations require authentication. Please authenticate first.".data

def multiMsg : Str :=
  "ERROR: Multiple statements are not allowed.".data

def typeMsg : Str :=
  "ERROR: Only SELECT, UPDATE, INSERT, DELETE statements are allowed.".data

def errPre : Str := "ERROR: ".data

def gemWriteMsg : Str := "ERROR: write operations are not allowed.".data

def gemMultiMsg : Str := "ERROR: multiple statements are not allowed.".data

def gemSelectMsg : Str := "ERROR: only SELECT statements are allowed.".data

def limStr100 : Str := " LIMIT 100".data

def limStr200 : Str := " LIMIT 200".data

/-- `s.split()[0].upper()`: the first whitespace-delimited token, upper-cased. -/
def firstWordUpper (l : Str) : Str :=
  ((l.dropWhile pySpace).takeWhile (fun c => !pySpace c)).map upC

/-- The write acknowledgment `f"{operation} operation completed successfully"`. -/
def ackMsg (s : Str) : Str :=
  firstWordUpper s ++ " operation completed successfully".data

/-- Result of one engine call: columns, rows, and the data-source state
that a subsequent `commit` would install. -/
structure ExecOut (σ : Type) where
  cols : List Str
  rows : List (List Str)
  pending : σ
deriving DecidableEq

/-- Abstraction of the SQLAlchemy engine: executing a statement on the
current state either raises (an error message) or yields a result. -/
structure Engine (σ : Type) where
  run : σ → Str → Except Str (ExecOut σ)

/-- The Python return value of the single-statement `_run`: a plain string
(validation error, execution error, or write acknowledgment) or the
`{"columns": ..., "rows": ...}` dictionary. -/
inductive RunRes where
  | str : Str → RunRes
  | query : List Str → List (List Str) → RunRes
deriving DecidableEq

/-- The Python return value of the multi-statement `_run`: an early error
string, a single unwrapped result, or a list of results. -/
inductive MultiRes where
  | str : Str → MultiRes
  | query : List Str → List (List Str) → MultiRes
  | list : List RunRes → MultiRes
deriving DecidableEq

/-- `SecureSchoolSQLTool._run` of `main.py`.  Returns the result, the
data-source state after the call, and the list of statement texts that
were handed to the engine. -/
def runMain {σ : Type} (E : Engine σ) (auth : Bool) (sql : Str) (st : σ) :
    RunRes × σ × List Str :=
  let s := pyNormalize sql
  if dangerousSearch s then (.str dangerousMsg, st, [])
  else if writeSearch s && !auth then (.str authMsg, st, [])
  else if s.contains ';' then (.str multiMsg, st, [])
  else if !leadingAllowed s then (.str typeMsg, st, [])
  else
    let t := if leadingSelect s && !limitSearch s && !aggSearch s then s ++ limStr100 else s
    match E.run st t with
    | .error e => (.str (errPre ++ e), st, [t])
    | .ok o =>
      if leadingSelect t then (.query o.cols o.rows, st, [t])
      else (.str (ackMsg t), o.pending, [t])

/-- The unwrapping `results[0] if len(results) == 1 else results` of the
multi-statement `_run`. -/
def finishMulti : List RunRes → MultiRes
  | [RunRes.str s] => .str s
  | [RunRes.query c r] => .query c r
  | rs => .list rs

/-- The per-statement loop of `SecureSchoolSQLTool._run` in `app.py`,
with the accumulated results and the engine log carried in reverse order. -/
def runMultiAux {σ : Type} (E : Engine σ) (auth : Bool) :
    List Str → σ → List RunRes → List Str → MultiRes × σ × List Str
  | [], st, acc, lg => (finishMulti acc.reverse, st, lg.reverse)
  | s :: rest, st, acc, lg =>
    if dangerousSearch s then (.str dangerousMsg, st, lg.reverse)
    else if writeSearch s && !auth then (.str authMsg, st, lg.reverse)
    else if !leadingAllowed s then (.str typeMsg, st, lg.reverse)
    else
      let t := if leadingSelect s && !limitSearch s && !aggSearch s then s ++ limStr100 else s
      match E.run st t with
      | .error e => (.str (errPre ++ e), st, (t :: lg).reverse)
      | .ok o =>
        if leadingSelect t then runMultiAux E auth rest st (.query o.cols o.rows :: acc) (t :: lg)
        else runMultiAux E auth rest o.pending (.str (ackMsg t) :: acc) (t :: lg)

/-- `SecureSchoolSQLTool._run` of `app.py`. -/
def runMulti {σ : Type} (E : Engine σ) (auth : Bool) (sql : Str) (st : σ) :
    MultiRes × σ × List Str :=
  runMultiAux E auth (splitStmts sql) st [] []

/-- `SafeSQLTool._run` of `SQLAgent/scripts/gemini_agent.py`. -/
def runGemini {σ : Type} (E : Engine σ) (sql : Str) (st : σ) :
    RunRes × σ × List Str :=
  let s := pyNormalize sql
  if gemWriteSearch s then (.str gemWriteMsg, st, [])
  else if s.contains ';' then (.str gemMultiMsg, st, [])
  else if !leadingSelect s then (.str gemSelectMsg, st, [])
  else
    let t := if !limitSearch s && !gemAggSearch s then s ++ limStr200 else s
    match E.run st t with
    | .error e => (.str (errPre ++ e), st, [t])
    | .ok o => (.query o.cols o.rows, st, [t])

/-- A concrete engine over `Nat` states used to instantiate the theorems:
every call succeeds with an empty table and a pending state bump, so a
state change witnesses exactly the calls that were committed. -/
def trivE : Engine Nat :=
  ⟨fun st _ => .ok ⟨[], [], st + 1⟩⟩

example : dangerousSearch "DROP TABLE t".data = true := by decide
example : dangerousSearch "SELECT * FROM drops".data = false := by decide
example : dangerousSearch "select * from t where exec = 1".data = true := by decide
example : writeSearch "SELECT * FROM students".data = false := by decide
example : writeSearch "insert into t values (1)".data = true := by decide
example : pyNormalize "  SELECT 1;;  ".data = "SELECT 1".data := by decide
example : pyNormalize "SELECT 1; ;".data = "SELECT 1; ".data := by decide
example : splitStmts "INSERT INTO t VALUES (1); DROP TABLE t".data =
    ["INSERT INTO t VALUES (1)".data, "DROP TABLE t".data] := by decide
example : splitStmts " ; ; ".data = [] := by decide
example : limitSearch "SELECT a FROM t LIMIT 10".data = true := by decide
example : limitSearch "SELECT a FROM t LIMIT 10x".data = false := by decide
example : aggSearch "SELECT COUNT(*) FROM t".data = true := by decide
example : aggSearch "SELECT a FROM t GROUP  BY a".data = true := by decide
example : aggSearch "SELECT grouping FROM t".data = false := by decide
example : leadingAllowed "  select 1".data = true := by decide
example : leadingAllowed "CREATE TABLE t (id INT)".data = false := by decide
example : leadingSelect "SELECT 1".data = true := by decide
example : runMain trivE true "SELECT 1".data 0 =
    (.query [] [], 0, ["SELECT 1 LIMIT 100".data]) := by decide
example : runMain trivE true "UPDATE t SET a = 1".data 0 =
    (.str "UPDATE operation completed successfully".data, 1, ["UPDATE t SET a = 1".data]) := by
  decide
example : runMain trivE false "UPDATE t SET a = 1".data 0 =
    (.str authMsg, 0, []) := by decide
example : runMain trivE true "CREATE TABLE t2 (id INT)".data 0 =
    (.str typeMsg, 0, []) := by decide
example : runMulti trivE true "INSERT INTO t VALUES (1); DROP TABLE t".data 0 =
    (.str dangerousMsg, 1, ["INSERT INTO t VALUES (1)".data]) := by decide
example : runMulti trivE false "INSERT INTO t VALUES (1); DROP TABLE t".data 0 =
    (.str authMsg, 0, []) := by decide
example : runGemini trivE "SELECT name FROM students".data 0 =
    (.query [] [], 0, ["SELECT name FROM students LIMIT 200".data]) := by decide

/-- A keyword pattern is well formed when it is nonempty and consists of
word characters only; every keyword of the source's regexes is. -/
def goodKW (kw : Str) : Prop :=
  kw ≠ [] ∧ ∀ k ∈ kw, isWordChar k = true

instance (kw : Str) : Decidable (goodKW kw) := by
  unfold goodKW
  infer_instance

theorem not_lower_of_not_word {c : Char} (h : isWordChar c = false) :
    c.isLower = false := by
  cases hl : c.isLower
  · rfl
  · have : isWordChar c = true := by simp [isWordChar, Char.isAlpha, hl]
    simp [this] at h

theorem upC_of_not_word {c : Char} (h : isWordChar c = false) : upC c = c := by
  simp [upC, not_lower_of_not_word h]

theorem matchKW_none_head {k c : Char} {ks cs : Str}
    (hk : isWordChar k = true) (hc : isWordChar c = false) :
    matchKW (k :: ks) (c :: cs) = none := by
  have hne : upC c ≠ k := by
    rw [upC_of_not_word hc]
    intro he
    rw [he] at hc
    simp [hk] at hc
  simp [matchKW, hne]

theorem wordHit_false_head {kw : Str} (hkw : goodKW kw) {c : Char} {cs : Str}
    (hc : isWordChar c = false) : wordHit kw (c :: cs) = false := by
  obtain ⟨hne, hall⟩ := hkw
  cases kw with
  | nil => exact absurd rfl hne
  | cons k ks =>
    simp [wordHit, matchKW_none_head (hall k (List.mem_cons_self k ks)) hc]

theorem scanH_bvar {h : Str → Bool} {p q : Option Char}
    (hpq : boundaryOK p = boundaryOK q) (l : Str) :
    scanH (fun a t => boundaryOK a && h t) p l =
    scanH (fun a t => boundaryOK a && h t) q l := by
  cases l with
  | nil => rfl
  | cons c cs => simp only [scanH, hpq]

theorem searchWord_cons_nonword {kw : Str} (hkw : goodKW kw) {c : Char}
    (hc : isWordChar c = false) (l : Str) :
    searchWord kw (c :: l) = searchWord kw l := by
  unfold searchWord
  simp only [scanH, wordHit_false_head hkw hc, Bool.and_false, Bool.false_or]
  exact scanH_bvar (by simp [boundaryOK, hc]) l

theorem searchWord_nonword_pre {kw : Str} (hkw : goodKW kw) {x : Str}
    (hx : ∀ c ∈ x, isWordChar c = false) (y : Str) :
    searchWord kw (x ++ y) = searchWord kw y := by
  induction x with
  | nil => rfl
  | cons c x ih =>
    rw [List.cons_append,
      searchWord_cons_nonword hkw (hx c (List.mem_cons_self c x)),
      ih (fun d hd => hx d (List.mem_cons_of_mem c hd))]

theorem matchKW_append_some {kw x r : Str} (h : matchKW kw x = some r) (y : Str) :
    matchKW kw (x ++ y) = some (r ++ y) := by
  induction kw generalizing x with
  | nil =>
    simp only [matchKW] at h ⊢
    rw [Option.some.injEq] at h
    rw [h]
  | cons k ks ih =>
    cases x with
    | nil => simp [matchKW] at h
    | cons c cs =>
      simp only [matchKW, List.cons_append] at h ⊢
      by_cases hc : upC c = k
      · rw [if_pos hc] at h ⊢
        exact ih h
      · rw [if_neg hc] at h
        exact absurd h (by simp)

theorem matchKW_append_none {kw : Str} (hall : ∀ k ∈ kw, isWordChar k = true)
    {y : Str} (hy : ∀ c ∈ y, isWordChar c = false) {x : Str}
    (h : matchKW kw x = none) : matchKW kw (x ++ y) = none := by
  induction kw generalizing x with
  | nil => simp [matchKW] at h
  | cons k ks ih =>
    cases x with
    | nil =>
      cases y with
      | nil => rfl
      | cons c cs =>
        exact matchKW_none_head (hall k (List.mem_cons_self k ks))
          (hy c (List.mem_cons_self c cs))
    | cons c cs =>
      simp only [matchKW, List.cons_append] at h ⊢
      by_cases hc : upC c = k
      · rw [if_pos hc] at h ⊢
        exact ih (fun a ha => hall a (List.mem_cons_of_mem k ha)) h
      · rw [if_neg hc]

theorem wordHit_nonword_suf {kw : Str} (hkw : goodKW kw) {y : Str}
    (hy : ∀ c ∈ y, isWordChar c = false) (x : Str) :
    wordHit kw (x ++ y) = wordHit kw x := by
  cases hm : matchKW kw x with
  | none =>
    simp [wordHit, hm, matchKW_append_none hkw.2 hy hm]
  | some r =>
    simp only [wordHit, hm, matchKW_append_some hm y]
    cases r with
    | nil =>
      cases y with
      | nil => rfl
      | cons c cs => simp [headNotWord, hy c (List.mem_cons_self c cs)]
    | cons a as => rfl

theorem searchWord_all_nonword {kw : Str} (hkw : goodKW kw) {y : Str}
    (hy : ∀ c ∈ y, isWordChar c = false) (p : Option Char) :
    scanH (fun a t => boundaryOK a && wordHit kw t) p y = false := by
  induction y generalizing p with
  | nil => rfl
  | cons c cs ih =>
    simp only [scanH, wordHit_false_head hkw (hy c (List.mem_cons_self c cs)),
      Bool.and_false, Bool.false_or]
    exact ih (fun d hd => hy d (List.mem_cons_of_mem c hd)) (some c)

theorem searchWord_nonword_suf {kw : Str} (hkw : goodKW kw) {y : Str}
    (hy : ∀ c ∈ y, isWordChar c = false) (x : Str) :
    searchWord kw (x ++ y) = searchWord kw x := by
  unfold searchWord
  suffices h : ∀ p, scanH (fun a t => boundaryOK a && wordHit kw t) p (x ++ y) =
      scanH (fun a t => boundaryOK a && wordHit kw t) p x from h none
  induction x with
  | nil =>
    intro p
    exact searchWord_all_nonword hkw hy p
  | cons c x ih =>
    intro p
    have hw : wordHit kw (c :: (x ++ y)) = wordHit kw (c :: x) := by
      have h2 := wordHit_nonword_suf hkw hy (c :: x)
      rwa [List.cons_append] at h2
    simp only [List.cons_append, scanH, List.append_eq]
    rw [hw, ih (some c)]

theorem space_not_word {c : Char} (h : pySpace c = true) : isWordChar c = false := by
  simp only [pySpace, Bool.or_eq_true, decide_eq_true_eq] at h
  rcases h with ((((h | h) | h) | h) | h) | h <;> subst h <;> decide

theorem semi_not_word {c : Char} (h : c = ';') : isWordChar c = false := by
  rw [h]; decide

theorem searchWord_pyStrip {kw : Str} (hkw : goodKW kw) (l : Str) :
    searchWord kw (pyStrip l) = searchWord kw l := by
  have h1 : l = l.takeWhile pySpace ++ l.dropWhile pySpace :=
    (List.takeWhile_append_dropWhile pySpace l).symm
  have hx : ∀ c ∈ l.takeWhile pySpace, isWordChar c = false :=
    fun c hc => space_not_word (List.mem_takeWhile_imp hc)
  have h2 : l.dropWhile pySpace = pyStrip l ++
      ((l.dropWhile pySpace).reverse.takeWhile pySpace).reverse := by
    unfold pyStrip
    rw [← List.reverse_append, List.takeWhile_append_dropWhile, List.reverse_reverse]
  have hy : ∀ c ∈ ((l.dropWhile pySpace).reverse.takeWhile pySpace).reverse,
      isWordChar c = false := by
    intro c hc
    rw [List.mem_reverse] at hc
    exact space_not_word (List.mem_takeWhile_imp hc)
  calc searchWord kw (pyStrip l)
      = searchWord kw (pyStrip l ++
          ((l.dropWhile pySpace).reverse.takeWhile pySpace).reverse) :=
        (searchWord_nonword_suf hkw hy _).symm
    _ = searchWord kw (l.dropWhile pySpace) := by rw [← h2]
    _ = searchWord kw (l.takeWhile pySpace ++ l.dropWhile pySpace) :=
        (searchWord_nonword_pre hkw hx _).symm
    _ = searchWord kw l := by rw [← h1]

theorem searchWord_pyNormalize {kw : Str} (hkw : goodKW kw) (l : Str) :
    searchWord kw (pyNormalize l) = searchWord kw l := by
  have h2 : pyStrip l = pyNormalize l ++
      ((pyStrip l).reverse.takeWhile (fun c => c = ';')).reverse := by
    unfold pyNormalize
    rw [← List.reverse_append, List.takeWhile_append_dropWhile, List.reverse_reverse]
  have hy : ∀ c ∈ ((pyStrip l).reverse.takeWhile (fun c => c = ';')).reverse,
      isWordChar c = false := by
    intro c hc
    rw [List.mem_reverse] at hc
    have := List.mem_takeWhile_imp hc
    simp only [decide_eq_true_eq] at this
    exact semi_not_word this
  calc searchWord kw (pyNormalize l)
      = searchWord kw (pyNormalize l ++
          ((pyStrip l).reverse.takeWhile (fun c => c = ';')).reverse) :=
        (searchWord_nonword_suf hkw hy _).symm
    _ = searchWord kw (pyStrip l) := by rw [← h2]
    _ = searchWord kw l := searchWord_pyStrip hkw l

theorem dangerousSearch_pyNormalize (l : Str) :
    dangerousSearch (pyNormalize l) = dangerousSearch l := by
  unfold dangerousSearch searchAnyWord
  simp only [List.any_cons, List.any_nil]
  rw [searchWord_pyNormalize (by decide), searchWord_pyNormalize (by decide),
    searchWord_pyNormalize (by decide), searchWord_pyNormalize (by decide)]

theorem writeSearch_pyNormalize (l : Str) :
    writeSearch (pyNormalize l) = writeSearch l := by
  unfold writeSearch searchAnyWord
  simp only [List.any_cons, List.any_nil]
  rw [searchWord_pyNormalize (by decide), searchWord_pyNormalize (by decide),
    searchWord_pyNormalize (by decide), searchWord_pyNormalize (by decide),
    searchWord_pyNormalize (by decide), searchWord_pyNormalize (by decide)]

theorem wordHit_nil_false {kw : Str} (hkw : goodKW kw) : wordHit kw [] = false := by
  obtain ⟨hne, _⟩ := hkw
  cases kw with
  | nil => exact absurd rfl hne
  | cons k ks => rfl

theorem leadingKW_searchWord {kw : Str} (hkw : goodKW kw) {l : Str}
    (h : leadingKW kw l = true) : searchWord kw l = true := by
  unfold leadingKW at h
  have hx : ∀ c ∈ l.takeWhile pySpace, isWordChar c = false :=
    fun c hc => space_not_word (List.mem_takeWhile_imp hc)
  have h1 : searchWord kw l = searchWord kw (l.dropWhile pySpace) := by
    conv_lhs => rw [← List.takeWhile_append_dropWhile pySpace l]
    exact searchWord_nonword_pre hkw hx _
  rw [h1]
  cases hd : l.dropWhile pySpace with
  | nil =>
    rw [hd, wordHit_nil_false hkw] at h
    exact absurd h (by simp)
  | cons c cs =>
    rw [hd] at h
    unfold searchWord
    simp [scanH, boundaryOK, h]

theorem leadingKW_ne {k1 k2 : Char} {ks1 ks2 l : Str}
    (h1 : leadingKW (k1 :: ks1) l = true) (hne : k1 ≠ k2) :
    leadingKW (k2 :: ks2) l = false := by
  unfold leadingKW at h1 ⊢
  cases hd : l.dropWhile pySpace with
  | nil => rw [hd] at h1; simp [wordHit, matchKW] at h1
  | cons c cs =>
    rw [hd] at h1
    unfold wordHit matchKW at h1 ⊢
    by_cases hc : upC c = k1
    · have hg : upC c ≠ k2 := fun he => hne (hc.symm.trans he)
      simp [if_neg hg]
    · rw [if_neg hc] at h1
      simp at h1

theorem wordHit_append_keep {kw x y : Str} (h : wordHit kw x = true)
    (hy : headNotWord y = true) : wordHit kw (x ++ y) = true := by
  unfold wordHit at h ⊢
  cases hm : matchKW kw x with
  | none => rw [hm] at h; exact absurd h (by simp)
  | some r =>
    rw [hm] at h
    rw [matchKW_append_some hm y]
    show headNotWord (r ++ y) = true
    cases r with
    | nil => simpa using hy
    | cons a as => exact h

theorem leadingSelect_append_lim {l : Str} (h : leadingSelect l = true) :
    leadingSelect (l ++ limStr100) = true := by
  unfold leadingSelect leadingKW at h ⊢
  have hne : l.dropWhile pySpace ≠ [] := by
    intro h0
    rw [h0, wordHit_nil_false (by decide)] at h
    exact absurd h (by simp)
  have hie : (l.dropWhile pySpace).isEmpty = false := by
    cases hd : l.dropWhile pySpace with
    | nil => exact absurd hd hne
    | cons a as => rfl
  rw [List.dropWhile_append, if_neg (by rw [hie]; exact Bool.false_ne_true)]
  exact wordHit_append_keep h (by decide)

theorem leadingSelect_allowed {l : Str} (h : leadingSelect l = true) :
    leadingAllowed l = true := by
  unfold leadingAllowed
  unfold leadingSelect at h
  simp [h]

theorem leadingAllowed_false_of {l : Str} {k : Char} {ks : Str}
    (h : leadingKW (k :: ks) l = true)
    (h1 : k ≠ 'S') (h2 : k ≠ 'U') (h3 : k ≠ 'I') (h4 : k ≠ 'D') :
    leadingAllowed l = false := by
  have hS : leadingKW kwSELECT l = false := by
    rw [show kwSELECT = 'S' :: "ELECT".data from rfl]
    exact leadingKW_ne h h1
  have hU : leadingKW kwUPDATE l = false := by
    rw [show kwUPDATE = 'U' :: "PDATE".data from rfl]
    exact leadingKW_ne h h2
  have hI : leadingKW kwINSERT l = false := by
    rw [show kwINSERT = 'I' :: "NSERT".data from rfl]
    exact leadingKW_ne h h3
  have hD : leadingKW kwDELETE l = false := by
    rw [show kwDELETE = 'D' :: "ELETE".data from rfl]
    exact leadingKW_ne h h4
  simp [leadingAllowed, hS, hU, hI, hD]

theorem writeSearch_of_kw {l kw : Str}
    (hmem : kw ∈ [kwINSERT, kwUPDATE, kwDELETE, kwCREATE, kwALTER, kwREPLACE])
    (h : searchWord kw l = true) : writeSearch l = true := by
  unfold writeSearch searchAnyWord
  exact List.any_eq_true.mpr ⟨kw, hmem, h⟩

theorem leadingAllowed_not_select_write {l : Str} (ha : leadingAllowed l = true)
    (hs : leadingSelect l = false) : writeSearch l = true := by
  unfold leadingAllowed at ha
  unfold leadingSelect at hs
  rw [hs, Bool.false_or] at ha
  cases hu : leadingKW kwUPDATE l with
  | true => exact writeSearch_of_kw (by decide) (leadingKW_searchWord (by decide) hu)
  | false =>
    rw [hu, Bool.false_or] at ha
    cases hi : leadingKW kwINSERT l with
    | true => exact writeSearch_of_kw (by decide) (leadingKW_searchWord (by decide) hi)
    | false =>
      rw [hi, Bool.false_or] at ha
      exact writeSearch_of_kw (by decide) (leadingKW_searchWord (by decide) ha)

theorem runMain_dangerous {σ : Type} (E : Engine σ) (auth : Bool) (sql : Str) (st : σ)
    (hd : dangerousSearch (pyNormalize sql) = true) :
    runMain E auth sql st = (.str dangerousMsg, st, []) := by
  simp [runMain, hd]

theorem runMain_auth {σ : Type} (E : Engine σ) (auth : Bool) (sql : Str) (st : σ)
    (hd : dangerousSearch (pyNormalize sql) = false)
    (hwa : (writeSearch (pyNormalize sql) && !auth) = true) :
    runMain E auth sql st = (.str authMsg, st, []) := by
  simp [runMain, hd, hwa]

theorem runMain_multi {σ : Type} (E : Engine σ) (auth : Bool) (sql : Str) (st : σ)
    (hd : dangerousSearch (pyNormalize sql) = false)
    (hwa : (writeSearch (pyNormalize sql) && !auth) = false)
    (hsemi : (pyNormalize sql).contains ';' = true) :
    runMain E auth sql st = (.str multiMsg, st, []) := by
  simp only [runMain]
  rw [if_neg (by rw [hd]; exact Bool.false_ne_true)]
  rw [if_neg (by rw [hwa]; exact Bool.false_ne_true)]
  rw [if_pos hsemi]

theorem runMain_type {σ : Type} (E : Engine σ) (auth : Bool) (sql : Str) (st : σ)
    (hd : dangerousSearch (pyNormalize sql) = false)
    (hwa : (writeSearch (pyNormalize sql) && !auth) = false)
    (hsemi : (pyNormalize sql).contains ';' = false)
    (hla : leadingAllowed (pyNormalize sql) = false) :
    runMain E auth sql st = (.str typeMsg, st, []) := by
  simp only [runMain]
  rw [if_neg (by rw [hd]; exact Bool.false_ne_true)]
  rw [if_neg (by rw [hwa]; exact Bool.false_ne_true)]
  rw [if_neg (by rw [hsemi]; exact Bool.false_ne_true)]
  rw [if_pos (by rw [hla]; rfl)]

theorem runMain_log {σ : Type} (E : Engine σ) (auth : Bool) (sql : Str) (st : σ)
    (hd : dangerousSearch (pyNormalize sql) = false)
    (hwa : (writeSearch (pyNormalize sql) && !auth) = false)
    (hsemi : (pyNormalize sql).contains ';' = false)
    (hla : leadingAllowed (pyNormalize sql) = true) :
    (runMain E auth sql st).2.2 =
      [if leadingSelect (pyNormalize sql) && !limitSearch (pyNormalize sql) &&
          !aggSearch (pyNormalize sql)
        then pyNormalize sql ++ limStr100 else pyNormalize sql] := by
  simp only [runMain]
  rw [if_neg (by rw [hd]; exact Bool.false_ne_true)]
  rw [if_neg (by rw [hwa]; exact Bool.false_ne_true)]
  rw [if_neg (by rw [hsemi]; exact Bool.false_ne_true)]
  rw [if_neg (by rw [hla]; simp)]
  cases hc : leadingSelect (pyNormalize sql) && !limitSearch (pyNormalize sql) &&
      !aggSearch (pyNormalize sql) with
  | true =>
    simp only [eq_self_iff_true, if_true]
    cases E.run st (pyNormalize sql ++ limStr100) with
    | error e => rfl
    | ok o =>
      cases leadingSelect (pyNormalize sql ++ limStr100) with
      | true => rfl
      | false => rfl
  | false =>
    simp only [Bool.false_eq_true, if_false]
    cases E.run st (pyNormalize sql) with
    | error e => rfl
    | ok o =>
      cases leadingSelect (pyNormalize sql) with
      | true => rfl
      | false => rfl

theorem runGemini_log {σ : Type} (E : Engine σ) (sql : Str) (st : σ)
    (hgw : gemWriteSearch (pyNormalize sql) = false)
    (hsemi : (pyNormalize sql).contains ';' = false)
    (hsel : leadingSelect (pyNormalize sql) = true) :
    (runGemini E sql st).2.2 =
      [if !limitSearch (pyNormalize sql) && !gemAggSearch (pyNormalize sql)
        then pyNormalize sql ++ limStr200 else pyNormalize sql] := by
  simp only [runGemini]
  rw [if_neg (by rw [hgw]; exact Bool.false_ne_true)]
  rw [if_neg (by rw [hsemi]; exact Bool.false_ne_true)]
  rw [if_neg (by rw [hsel]; simp)]
  cases hc : !limitSearch (pyNormalize sql) && !gemAggSearch (pyNormalize sql) with
  | true =>
    simp only [eq_self_iff_true, if_true]
    cases E.run st (pyNormalize sql ++ limStr200) with
    | error e => rfl
    | ok o => rfl
  | false =>
    simp only [Bool.false_eq_true, if_false]
    cases E.run st (pyNormalize sql) with
    | error e => rfl
    | ok o => rfl

theorem runMain_select_state {σ : Type} {E : Engine σ} {auth : Bool} {sql : Str} {st : σ}
    (hsel : leadingSelect (pyNormalize sql) = true) :
    (runMain E auth sql st).2.1 = st := by
  simp only [runMain]
  split
  · rfl
  split
  · rfl
  split
  · rfl
  split
  · rfl
  cases hc : leadingSelect (pyNormalize sql) && !limitSearch (pyNormalize sql) &&
      !aggSearch (pyNormalize sql) with
  | true =>
    simp only [eq_self_iff_true, if_true]
    cases E.run st (pyNormalize sql ++ limStr100) with
    | error e => rfl
    | ok o =>
      rw [leadingSelect_append_lim hsel]
      rfl
  | false =>
    simp only [Bool.false_eq_true, if_false]
    cases E.run st (pyNormalize sql) with
    | error e => rfl
    | ok o =>
      rw [hsel]
      rfl

theorem runMain_change_write {σ : Type} {E : Engine σ} {auth : Bool} {sql : Str} {st : σ}
    (hne : (runMain E auth sql st).2.1 ≠ st) :
    writeSearch (pyNormalize sql) = true := by
  by_cases hsel : leadingSelect (pyNormalize sql) = true
  · exact absurd (runMain_select_state hsel) hne
  · have hsel2 : leadingSelect (pyNormalize sql) = false := by
      cases hv : leadingSelect (pyNormalize sql)
      · rfl
      · exact absurd hv hsel
    by_cases hla : leadingAllowed (pyNormalize sql) = true
    · exact leadingAllowed_not_select_write hla hsel2
    · exfalso
      apply hne
      have hla2 : leadingAllowed (pyNormalize sql) = false := by
        cases hv : leadingAllowed (pyNormalize sql)
        · rfl
        · exact absurd hv hla
      simp only [runMain]
      split
      · rfl
      split
      · rfl
      split
      · rfl
      split
      · rfl
      · rename_i h4
        exact absurd (by rw [hla2]; rfl) h4

theorem runMain_query_state {σ : Type} {E : Engine σ} {auth : Bool} {sql : Str}
    {st st2 : σ} {c : List Str} {r : List (List Str)} {lg : List Str}
    (h : runMain E auth sql st = (RunRes.query c r, st2, lg)) : st2 = st := by
  simp only [runMain] at h
  repeat' split at h
  all_goals
    first
      | (simp only [Prod.mk.injEq] at h
         exact h.2.1.symm)
      | simp at h

theorem finishMulti_query {rs : List RunRes} {c : List Str} {r : List (List Str)}
    (h : finishMulti rs = MultiRes.query c r) : rs = [RunRes.query c r] := by
  unfold finishMulti at h
  split at h
  · simp at h
  · rename_i c0 r0
    simp only [MultiRes.query.injEq] at h
    rw [h.1, h.2]
  · simp at h

theorem runMultiAux_str_mem {σ : Type} (E : Engine σ) (auth : Bool) :
    ∀ (stmts : List Str) (st : σ) (acc : List RunRes) (lg : List Str) (m : Str)
      (c : List Str) (r : List (List Str)) (st2 : σ) (lg2 : List Str),
      RunRes.str m ∈ acc →
      runMultiAux E auth stmts st acc lg ≠ (MultiRes.query c r, st2, lg2) := by
  intro stmts
  induction stmts with
  | nil =>
    intro st acc lg m c r st2 lg2 hm h
    simp only [runMultiAux] at h
    have hq : finishMulti acc.reverse = MultiRes.query c r := congrArg Prod.fst h
    have hacc := finishMulti_query hq
    have hmem : RunRes.str m ∈ acc.reverse := List.mem_reverse.mpr hm
    rw [hacc] at hmem
    simp at hmem
  | cons s rest ih =>
    intro st acc lg m c r st2 lg2 hm h
    simp only [runMultiAux] at h
    repeat' split at h
    all_goals
      first
        | simp at h
        | exact ih _ _ _ m c r st2 lg2 (List.mem_cons_of_mem _ hm) h

theorem runMultiAux_query_state {σ : Type} (E : Engine σ) (auth : Bool) :
    ∀ (stmts : List Str) (st : σ) (acc : List RunRes) (lg : List Str)
      (c : List Str) (r : List (List Str)) (st2 : σ) (lg2 : List Str),
      runMultiAux E auth stmts st acc lg = (MultiRes.query c r, st2, lg2) → st2 = st := by
  intro stmts
  induction stmts with
  | nil =>
    intro st acc lg c r st2 lg2 h
    have h0 : (runMultiAux E auth [] st acc lg).2.1 = st := rfl
    rw [h] at h0
    exact h0
  | cons s rest ih =>
    intro st acc lg c r st2 lg2 h
    simp only [runMultiAux] at h
    repeat' split at h
    all_goals
      first
        | simp at h
        | exact ih st _ _ c r st2 lg2 h
        | exact absurd h
            (runMultiAux_str_mem E auth rest _ _ _ _ c r st2 lg2 (List.mem_cons_self _ _))

theorem runMultiAux_select_state {σ : Type} (E : Engine σ) (auth : Bool) :
    ∀ (stmts : List Str) (st : σ) (acc : List RunRes) (lg : List Str),
      (∀ s ∈ stmts, leadingSelect s = true) →
      (runMultiAux E auth stmts st acc lg).2.1 = st := by
  intro stmts
  induction stmts with
  | nil =>
    intro st acc lg _
    rfl
  | cons s rest ih =>
    intro st acc lg hall
    have hsel : leadingSelect s = true := hall s (List.mem_cons_self s rest)
    have hrest : ∀ x ∈ rest, leadingSelect x = true :=
      fun x hx => hall x (List.mem_cons_of_mem s hx)
    simp only [runMultiAux]
    split
    · rfl
    split
    · rfl
    split
    · rfl
    cases hc : leadingSelect s && !limitSearch s && !aggSearch s with
    | true =>
      simp only [eq_self_iff_true, if_true]
      cases E.run st (s ++ limStr100) with
      | error e => rfl
      | ok o =>
        rw [leadingSelect_append_lim hsel]
        exact ih st _ _ hrest
    | false =>
      simp only [Bool.false_eq_true, if_false]
      cases E.run st s with
      | error e => rfl
      | ok o =>
        rw [hsel]
        exact ih st _ _ hrest

theorem bfalse {b : Bool} (h : ¬b = true) : b = false := by
  cases b
  · rfl
  · exact absurd rfl h

/-- Claim C1 (corrected): a DROP/TRUNCATE/EXEC/EXECUTE keyword occurring as a
standalone word forces the dangerous-operation error unconditionally in the
single-statement gateway of `main.py`; in the multi-statement gateway of
`app.py` this holds when the keyword occurs in the first non-empty statement,
while a dangerous keyword in a later statement can be preempted by an earlier
statement's own validation error or execution. -/
theorem C1_dangerous_rejection {σ : Type} (E : Engine σ) (auth : Bool) (sql : Str) (st : σ) :
    (dangerousSearch sql = true → runMain E auth sql st = (.str dangerousMsg, st, [])) ∧
    (∀ s0 rest, splitStmts sql = s0 :: rest → dangerousSearch s0 = true →
      runMulti E auth sql st = (.str dangerousMsg, st, [])) := by
  constructor
  · intro hd
    exact runMain_dangerous E auth sql st (by rw [dangerousSearch_pyNormalize]; exact hd)
  · intro s0 rest hsplit hd0
    unfold runMulti
    rw [hsplit]
    simp only [runMultiAux]
    rw [if_pos hd0]
    rfl

/-- Claim C1, counterexample: in the multi-statement gateway an unauthenticated
write in the first statement preempts a dangerous keyword in the second, so the
returned error is the authentication error, not the dangerous-operation one. -/
theorem C1_counterexample :
    dangerousSearch "INSERT INTO t VALUES (1); DROP TABLE t".data = true ∧
    runMulti trivE false "INSERT INTO t VALUES (1); DROP TABLE t".data 0 =
      (.str authMsg, 0, []) ∧
    authMsg ≠ dangerousMsg := by decide

/-- Claim C1, witness instances. -/
theorem C1_witness :
    runMain trivE false "DROP TABLE students".data 0 = (.str dangerousMsg, 0, []) ∧
    runMulti trivE false "DROP TABLE students; SELECT 1".data 0 =
      (.str dangerousMsg, 0, []) :=
  ⟨(C1_dangerous_rejection trivE false "DROP TABLE students".data 0).1 (by decide),
   (C1_dangerous_rejection trivE false "DROP TABLE students; SELECT 1".data 0).2
     "DROP TABLE students".data ["SELECT 1".data] (by decide) (by decide)⟩

/-- Claim C2 (corrected): in the single-statement gateway every validation
failure (dangerous keyword, unauthenticated write, embedded separator,
unsupported statement type) returns an error string with the data-source state
unchanged and no statement handed to the engine; in the multi-statement
gateway the same holds when the first non-empty statement fails validation,
but a validation error on a later statement leaves earlier statements already
executed and committed. -/
theorem C2_validation_no_execution {σ : Type} (E : Engine σ) (auth : Bool) (sql : Str) (st : σ) :
    ((dangerousSearch (pyNormalize sql) = true ∨
      (writeSearch (pyNormalize sql) = true ∧ auth = false) ∨
      (pyNormalize sql).contains ';' = true ∨
      leadingAllowed (pyNormalize sql) = false) →
      ∃ m, runMain E auth sql st = (.str m, st, [])) ∧
    (∀ s0 rest, splitStmts sql = s0 :: rest →
      (dangerousSearch s0 = true ∨ (writeSearch s0 = true ∧ auth = false) ∨
        leadingAllowed s0 = false) →
      ∃ m, runMulti E auth sql st = (.str m, st, [])) := by
  constructor
  · intro h
    by_cases hd : dangerousSearch (pyNormalize sql) = true
    · exact ⟨dangerousMsg, runMain_dangerous E auth sql st hd⟩
    · by_cases hwa : (writeSearch (pyNormalize sql) && !auth) = true
      · exact ⟨authMsg, runMain_auth E auth sql st (bfalse hd) hwa⟩
      · by_cases hsemi : (pyNormalize sql).contains ';' = true
        · exact ⟨multiMsg, runMain_multi E auth sql st (bfalse hd) (bfalse hwa) hsemi⟩
        · have hla : leadingAllowed (pyNormalize sql) = false := by
            rcases h with h | ⟨h1, h2⟩ | h | h
            · exact absurd h hd
            · exact absurd (by rw [h1, h2]; rfl) hwa
            · exact absurd h hsemi
            · exact h
          exact ⟨typeMsg,
            runMain_type E auth sql st (bfalse hd) (bfalse hwa) (bfalse hsemi) hla⟩
  · intro s0 rest hsplit h
    unfold runMulti
    rw [hsplit]
    by_cases hd : dangerousSearch s0 = true
    · refine ⟨dangerousMsg, ?_⟩
      simp only [runMultiAux]
      rw [if_pos hd]
      rfl
    · by_cases hwa : (writeSearch s0 && !auth) = true
      · refine ⟨authMsg, ?_⟩
        simp only [runMultiAux]
        rw [if_neg (by rw [bfalse hd]; exact Bool.false_ne_true), if_pos hwa]
        rfl
      · have hla : leadingAllowed s0 = false := by
          rcases h with h | ⟨h1, h2⟩ | h
          · exact absurd h hd
          · exact absurd (by rw [h1, h2]; rfl) hwa
          · exact h
        refine ⟨typeMsg, ?_⟩
        simp only [runMultiAux]
        rw [if_neg (by rw [bfalse hd]; exact Bool.false_ne_true)]
        rw [if_neg (by rw [bfalse hwa]; exact Bool.false_ne_true)]
        rw [if_pos (by rw [hla]; rfl)]
        rfl

/-- Claim C2, counterexample: in the multi-statement gateway a dangerous
keyword in the second statement yields a validation error, yet the first
statement has already been executed and committed (state moved from 0 to 1,
and the engine log is nonempty). -/
theorem C2_counterexample :
    runMulti trivE true "INSERT INTO t VALUES (1); DROP TABLE t".data 0 =
      (.str dangerousMsg, 1, ["INSERT INTO t VALUES (1)".data]) ∧
    (1 : Nat) ≠ 0 := by decide

/-- Claim C2, witness instances. -/
theorem C2_witness :
    (∃ m, runMain trivE true "SELECT 1; SELECT 2".data 0 = (.str m, 0, [])) ∧
    (∃ m, runMulti trivE true "foo; SELECT 1".data 0 = (.str m, 0, [])) :=
  ⟨(C2_validation_no_execution trivE true "SELECT 1; SELECT 2".data 0).1
     (Or.inr (Or.inr (Or.inl (by decide)))),
   (C2_validation_no_execution trivE true "foo; SELECT 1".data 0).2
     "foo".data ["SELECT 1".data] (by decide) (Or.inr (Or.inr (by decide)))⟩

/-- Claim C3 (corrected): a statement containing a write keyword and no
dangerous keyword is rejected with the authentication error when the
authorization signal is false, before any engine contact, in the
single-statement gateway and for the first statement of the multi-statement
gateway; a statement that also contains a dangerous keyword gets the
dangerous-operation error instead. -/
theorem C3_write_requires_auth {σ : Type} (E : Engine σ) (sql : Str) (st : σ) :
    (writeSearch sql = true → dangerousSearch sql = false →
      runMain E false sql st = (.str authMsg, st, [])) ∧
    (∀ s0 rest, splitStmts sql = s0 :: rest → writeSearch s0 = true →
      dangerousSearch s0 = false →
      runMulti E false sql st = (.str authMsg, st, [])) := by
  constructor
  · intro hw hd
    apply runMain_auth E false sql st (by rw [dangerousSearch_pyNormalize]; exact hd)
    rw [writeSearch_pyNormalize, hw]
    rfl
  · intro s0 rest hsplit hw hd
    unfold runMulti
    rw [hsplit]
    simp only [runMultiAux]
    rw [if_neg (by rw [hd]; exact Bool.false_ne_true)]
    rw [if_pos (by rw [hw]; rfl)]
    rfl

/-- Claim C3, counterexample: a statement that contains both a write keyword
(INSERT) and a dangerous keyword (EXEC) is rejected with the dangerous-operation
error, not the authentication-required error the claim predicts. -/
theorem C3_counterexample :
    writeSearch "INSERT INTO logs EXEC cleanup".data = true ∧
    runMain trivE false "INSERT INTO logs EXEC cleanup".data 0 =
      (.str dangerousMsg, 0, []) ∧
    dangerousMsg ≠ authMsg := by decide

/-- Claim C3, witness instances. -/
theorem C3_witness :
    runMain trivE false "UPDATE students SET gpa = 4.0 WHERE id = 1".data 0 =
      (.str authMsg, 0, []) ∧
    runMulti trivE false "INSERT INTO t VALUES (1); SELECT 1".data 0 =
      (.str authMsg, 0, []) :=
  ⟨(C3_write_requires_auth trivE "UPDATE students SET gpa = 4.0 WHERE id = 1".data 0).1
     (by decide) (by decide),
   (C3_write_requires_auth trivE "INSERT INTO t VALUES (1); SELECT 1".data 0).2
     "INSERT INTO t VALUES (1)".data ["SELECT 1".data] (by decide) (by decide) (by decide)⟩

/-- Claim C4 (corrected): in the single-statement gateway, an embedded
separator in the normalized body always causes rejection before any execution,
but the error returned is the multiple-statements error only when neither the
dangerous-keyword check nor the write-authentication check fires first. -/
theorem C4_multiple_statements {σ : Type} (E : Engine σ) (auth : Bool) (sql : Str) (st : σ)
    (hsemi : (pyNormalize sql).contains ';' = true) :
    (runMain E auth sql st = (.str dangerousMsg, st, []) ∨
     runMain E auth sql st = (.str authMsg, st, []) ∨
     runMain E auth sql st = (.str multiMsg, st, [])) ∧
    (dangerousSearch (pyNormalize sql) = false →
      (writeSearch (pyNormalize sql) = true → auth = true) →
      runMain E auth sql st = (.str multiMsg, st, [])) := by
  constructor
  · by_cases hd : dangerousSearch (pyNormalize sql) = true
    · exact Or.inl (runMain_dangerous E auth sql st hd)
    · by_cases hwa : (writeSearch (pyNormalize sql) && !auth) = true
      · exact Or.inr (Or.inl (runMain_auth E auth sql st (bfalse hd) hwa))
      · exact Or.inr (Or.inr (runMain_multi E auth sql st (bfalse hd) (bfalse hwa) hsemi))
  · intro hd hwi
    have hwa : (writeSearch (pyNormalize sql) && !auth) = false := by
      cases hw : writeSearch (pyNormalize sql)
      · rfl
      · rw [hwi hw]
        rfl
    exact runMain_multi E auth sql st hd hwa hsemi

/-- Claim C4, counterexample: an input with both a dangerous keyword and an
embedded separator is rejected with the dangerous-operation error, not the
multiple-statements error the claim names. -/
theorem C4_counterexample :
    (pyNormalize "DROP t; SELECT 1".data).contains ';' = true ∧
    runMain trivE true "DROP t; SELECT 1".data 0 = (.str dangerousMsg, 0, []) ∧
    dangerousMsg ≠ multiMsg := by decide

/-- Claim C4, witness instance. -/
theorem C4_witness :
    (runMain trivE true "SELECT 1; SELECT 2".data 0 = (.str dangerousMsg, 0, []) ∨
     runMain trivE true "SELECT 1; SELECT 2".data 0 = (.str authMsg, 0, []) ∨
     runMain trivE true "SELECT 1; SELECT 2".data 0 = (.str multiMsg, 0, [])) ∧
    runMain trivE true "SELECT 1; SELECT 2".data 0 = (.str multiMsg, 0, []) :=
  ⟨(C4_multiple_statements trivE true "SELECT 1; SELECT 2".data 0 (by decide)).1,
   (C4_multiple_statements trivE true "SELECT 1; SELECT 2".data 0 (by decide)).2
     (by decide) (by decide)⟩

/-- Claim C5 (confirmed): a SELECT-leading statement that passes validation is
handed to the engine with a default LIMIT clause appended exactly when it has
neither an explicit `LIMIT <integer>` clause nor an aggregate indicator; the
cap is 100 in `main.py`/`app.py` and 200 in the gemini variant; otherwise the
statement is executed unchanged. -/
theorem C5_limit_injection {σ : Type} (E : Engine σ) (auth : Bool) (sql : Str) (st : σ)
    (hd : dangerousSearch (pyNormalize sql) = false)
    (hwi : writeSearch (pyNormalize sql) = true → auth = true)
    (hsemi : (pyNormalize sql).contains ';' = false)
    (hsel : leadingSelect (pyNormalize sql) = true) :
    (limitSearch (pyNormalize sql) = false → aggSearch (pyNormalize sql) = false →
      (runMain E auth sql st).2.2 = [pyNormalize sql ++ limStr100]) ∧
    (limitSearch (pyNormalize sql) = true ∨ aggSearch (pyNormalize sql) = true →
      (runMain E auth sql st).2.2 = [pyNormalize sql]) ∧
    (gemWriteSearch (pyNormalize sql) = false →
      (limitSearch (pyNormalize sql) = false → gemAggSearch (pyNormalize sql) = false →
        (runGemini E sql st).2.2 = [pyNormalize sql ++ limStr200]) ∧
      (limitSearch (pyNormalize sql) = true ∨ gemAggSearch (pyNormalize sql) = true →
        (runGemini E sql st).2.2 = [pyNormalize sql])) := by
  have hwa : (writeSearch (pyNormalize sql) && !auth) = false := by
    cases hw : writeSearch (pyNormalize sql)
    · rfl
    · rw [hwi hw]
      rfl
  have hla : leadingAllowed (pyNormalize sql) = true := leadingSelect_allowed hsel
  have hlog := runMain_log E auth sql st hd hwa hsemi hla
  refine ⟨?_, ?_, ?_⟩
  · intro hnl hna
    rw [hlog, hsel, hnl, hna]
    simp
  · intro hor
    have hc : (leadingSelect (pyNormalize sql) && !limitSearch (pyNormalize sql) &&
        !aggSearch (pyNormalize sql)) = false := by
      rcases hor with h | h
      · rw [h]
        simp
      · rw [h]
        simp
    rw [hlog, hc]
    simp
  · intro hgw
    have hglog := runGemini_log E sql st hgw hsemi hsel
    constructor
    · intro hnl hna
      rw [hglog, hnl, hna]
      simp
    · intro hor
      have hc : (!limitSearch (pyNormalize sql) && !gemAggSearch (pyNormalize sql)) = false := by
        rcases hor with h | h
        · rw [h]
          rfl
        · rw [h]
          simp
      rw [hglog, hc]
      simp

/-- Claim C5, witness instances. -/
theorem C5_witness :
    (runMain trivE false "SELECT name FROM students".data 0).2.2 =
      ["SELECT name FROM students LIMIT 100".data] ∧
    (runMain trivE false "SELECT COUNT(*) FROM students".data 0).2.2 =
      ["SELECT COUNT(*) FROM students".data] ∧
    (runGemini trivE "SELECT name FROM students".data 0).2.2 =
      ["SELECT name FROM students LIMIT 200".data] := by
  refine ⟨?_, ?_, ?_⟩
  · rw [(C5_limit_injection trivE false "SELECT name FROM students".data 0
      (by decide) (by decide) (by decide) (by decide)).1 (by decide) (by decide)]
    decide
  · rw [(C5_limit_injection trivE false "SELECT COUNT(*) FROM students".data 0
      (by decide) (by decide) (by decide) (by decide)).2.1 (Or.inr (by decide))]
    decide
  · rw [((C5_limit_injection trivE false "SELECT name FROM students".data 0
      (by decide) (by decide) (by decide) (by decide)).2.2 (by decide)).1
      (by decide) (by decide)]
    decide

/-- Claim C6 (corrected): a statement whose leading keyword is CREATE, ALTER
or REPLACE is classified as a write by the keyword search, but even with the
authorization signal true the gateway rejects it with the unsupported
statement-type error instead of executing it: only SELECT/UPDATE/INSERT/DELETE
pass the leading-keyword allowlist. -/
theorem C6_ddl_rejected {σ : Type} (E : Engine σ) (sql : Str) (st : σ)
    (hlead : (leadingKW kwCREATE (pyNormalize sql) || leadingKW kwALTER (pyNormalize sql) ||
      leadingKW kwREPLACE (pyNormalize sql)) = true)
    (hd : dangerousSearch (pyNormalize sql) = false)
    (hsemi : (pyNormalize sql).contains ';' = false) :
    writeSearch (pyNormalize sql) = true ∧
    runMain E true sql st = (.str typeMsg, st, []) := by
  have hl3 : leadingKW kwCREATE (pyNormalize sql) = true ∨
      leadingKW kwALTER (pyNormalize sql) = true ∨
      leadingKW kwREPLACE (pyNormalize sql) = true := by
    cases h1 : leadingKW kwCREATE (pyNormalize sql)
    · cases h2 : leadingKW kwALTER (pyNormalize sql)
      · refine Or.inr (Or.inr ?_)
        rw [h1, h2] at hlead
        simpa using hlead
      · exact Or.inr (Or.inl rfl)
    · exact Or.inl rfl
  have hw : writeSearch (pyNormalize sql) = true := by
    rcases hl3 with h | h | h
    · exact writeSearch_of_kw (by decide) (leadingKW_searchWord (by decide) h)
    · exact writeSearch_of_kw (by decide) (leadingKW_searchWord (by decide) h)
    · exact writeSearch_of_kw (by decide) (leadingKW_searchWord (by decide) h)
  have hla : leadingAllowed (pyNormalize sql) = false := by
    rcases hl3 with h | h | h
    · rw [show kwCREATE = 'C' :: "REATE".data from rfl] at h
      exact leadingAllowed_false_of h (by decide) (by decide) (by decide) (by decide)
    · rw [show kwALTER = 'A' :: "LTER".data from rfl] at h
      exact leadingAllowed_false_of h (by decide) (by decide) (by decide) (by decide)
    · rw [show kwREPLACE = 'R' :: "EPLACE".data from rfl] at h
      exact leadingAllowed_false_of h (by decide) (by decide) (by decide) (by decide)
  exact ⟨hw, runMain_type E true sql st hd (by rw [hw]; rfl) hsemi hla⟩

/-- Claim C6, counterexample: an authorized CREATE statement is rejected with
the unsupported statement-type error; it does not return the write
acknowledgment the claim predicts. -/
theorem C6_counterexample :
    runMain trivE true "CREATE TABLE archive (id INT)".data 0 = (.str typeMsg, 0, []) ∧
    typeMsg ≠ ackMsg "CREATE TABLE archive (id INT)".data := by decide

/-- Claim C6, witness instance. -/
theorem C6_witness :
    writeSearch (pyNormalize "CREATE TABLE archive (id INT)".data) = true ∧
    runMain trivE true "CREATE TABLE archive (id INT)".data 0 = (.str typeMsg, 0, []) :=
  C6_ddl_rejected trivE "CREATE TABLE archive (id INT)".data 0
    (by decide) (by decide) (by decide)

/-- Claim C7 (confirmed): a tabular result is only ever produced by the read
path, which never commits, so its state component equals the input state and
resubmitting the same statement against that state reproduces the identical
result, in both the single-statement and the multi-statement gateway. -/
theorem C7_read_idempotent {σ : Type} (E : Engine σ) (auth : Bool) (sql : Str) (st st2 : σ)
    (c : List Str) (r : List (List Str)) (lg : List Str) :
    (runMain E auth sql st = (RunRes.query c r, st2, lg) →
      st2 = st ∧ runMain E auth sql st2 = (RunRes.query c r, st2, lg)) ∧
    (runMulti E auth sql st = (MultiRes.query c r, st2, lg) →
      st2 = st ∧ runMulti E auth sql st2 = (MultiRes.query c r, st2, lg)) := by
  constructor
  · intro h
    have he := runMain_query_state h
    subst he
    exact ⟨rfl, h⟩
  · intro h
    have h2 := h
    unfold runMulti at h2
    have he := runMultiAux_query_state E auth (splitStmts sql) st [] [] c r st2 lg h2
    subst he
    exact ⟨rfl, h⟩

/-- Claim C7, witness instances. -/
theorem C7_witness :
    ((0 : Nat) = 0 ∧ runMain trivE true "SELECT 1".data 0 =
      (RunRes.query [] [], 0, ["SELECT 1 LIMIT 100".data])) ∧
    ((0 : Nat) = 0 ∧ runMulti trivE true "SELECT 2".data 0 =
      (MultiRes.query [] [], 0, ["SELECT 2 LIMIT 100".data])) :=
  ⟨(C7_read_idempotent trivE true "SELECT 1".data 0 0 [] []
      ["SELECT 1 LIMIT 100".data]).1 (by decide),
   (C7_read_idempotent trivE true "SELECT 2".data 0 0 [] []
      ["SELECT 2 LIMIT 100".data]).2 (by decide)⟩

/-- Claim C8 (confirmed): a SELECT-leading statement never commits: the
single-statement gateway leaves the state unchanged on it, any state change
implies the statement was write-classified, and a batch of SELECT-leading
statements leaves the state unchanged in the multi-statement gateway. -/
theorem C8_read_no_commit {σ : Type} (E : Engine σ) (auth : Bool) (sql : Str) (st : σ) :
    (leadingSelect (pyNormalize sql) = true → (runMain E auth sql st).2.1 = st) ∧
    ((runMain E auth sql st).2.1 ≠ st → writeSearch (pyNormalize sql) = true) ∧
    ((∀ s ∈ splitStmts sql, leadingSelect s = true) → (runMulti E auth sql st).2.1 = st) := by
  refine ⟨fun hsel => runMain_select_state hsel, fun hne => runMain_change_write hne, ?_⟩
  intro hall
  unfold runMulti
  exact runMultiAux_select_state E auth (splitStmts sql) st [] [] hall

/-- Claim C8, witness instances. -/
theorem C8_witness :
    (runMain trivE true "SELECT 1".data 0).2.1 = 0 ∧
    writeSearch (pyNormalize "INSERT INTO t VALUES (1)".data) = true ∧
    (runMulti trivE true "SELECT 1; SELECT 2".data 0).2.1 = 0 :=
  ⟨(C8_read_no_commit trivE true "SELECT 1".data 0).1 (by decide),
   (C8_read_no_commit trivE true "INSERT INTO t VALUES (1)".data 0).2.1 (by decide),
   (C8_read_no_commit trivE true "SELECT 1; SELECT 2".data 0).2.2 (by decide)⟩

/-- Claim C9 (confirmed): an input with no non-empty statement after splitting
on the separator and trimming makes the multi-statement gateway return the
empty list, with the state unchanged and no engine contact. -/
theorem C9_empty_batch {σ : Type} (E : Engine σ) (auth : Bool) (sql : Str) (st : σ)
    (h : splitStmts sql = []) :
    runMulti E auth sql st = (MultiRes.list [], st, []) := by
  unfold runMulti
  rw [h]
  rfl

/-- Claim C9, witness instance. -/
theorem C9_witness :
    runMulti trivE false " ; ; ".data 0 = (MultiRes.list [], 0, []) :=
  C9_empty_batch trivE false " ; ; ".data 0 (by decide)

/-- Claim C10 (confirmed): the single-statement gateway checks the whole
normalized input in the fixed order dangerous-keyword, write-authentication,
multiple-statements, leading-keyword type; in particular an input containing
both a dangerous keyword and multiple statements gets the dangerous-operation
error. -/
theorem C10_validation_order {σ : Type} (E : Engine σ) (auth : Bool) (sql : Str) (st : σ) :
    (dangerousSearch sql = true → runMain E auth sql st = (.str dangerousMsg, st, [])) ∧
    (dangerousSearch sql = false → writeSearch sql = true → auth = false →
      runMain E auth sql st = (.str authMsg, st, [])) ∧
    (dangerousSearch sql = false → (writeSearch sql = true → auth = true) →
      (pyNormalize sql).contains ';' = true →
      runMain E auth sql st = (.str multiMsg, st, [])) ∧
    (dangerousSearch sql = false → (writeSearch sql = true → auth = true) →
      (pyNormalize sql).contains ';' = false → leadingAllowed (pyNormalize sql) = false →
      runMain E auth sql st = (.str typeMsg, st, [])) := by
  have hdn := dangerousSearch_pyNormalize sql
  have hwn := writeSearch_pyNormalize sql
  refine ⟨?_, ?_, ?_, ?_⟩
  · intro hd
    exact runMain_dangerous E auth sql st (by rw [hdn, hd])
  · intro hd hw ha
    refine runMain_auth E auth sql st (by rw [hdn, hd]) ?_
    rw [hwn, hw, ha]
    rfl
  · intro hd hwi hsemi
    refine runMain_multi E auth sql st (by rw [hdn, hd]) ?_ hsemi
    cases hw : writeSearch (pyNormalize sql)
    · rfl
    · rw [hwn] at hw
      simp [hwi hw]
  · intro hd hwi hsemi hla
    refine runMain_type E auth sql st (by rw [hdn, hd]) ?_ hsemi hla
    cases hw : writeSearch (pyNormalize sql)
    · rfl
    · rw [hwn] at hw
      simp [hwi hw]

/-- Claim C10, witness instances. -/
theorem C10_witness :
    runMain trivE true "DROP x; SELECT 1".data 0 = (.str dangerousMsg, 0, []) ∧
    runMain trivE false "INSERT INTO t VALUES (1)".data 0 = (.str authMsg, 0, []) ∧
    runMain trivE true "SELECT 1; SELECT 2".data 0 = (.str multiMsg, 0, []) ∧
    runMain trivE true "foo".data 0 = (.str typeMsg, 0, []) :=
  ⟨(C10_validation_order trivE true "DROP x; SELECT 1".data 0).1 (by decide),
   (C10_validation_order trivE false "INSERT INTO t VALUES (1)".data 0).2.1
     (by decide) (by decide) (by decide),
   (C10_validation_order trivE true "SELECT 1; SELECT 2".data 0).2.2.1
     (by decide) (by decide) (by decide),
   (C10_validation_order trivE true "foo".data 0).2.2.2
     (by decide) (by decide) (by decide) (by decide)⟩

end SQLGate
